import Mathlib

/-!
Verification development for the content-analyzer repository.

The definitions below are a shallow embedding of the JavaScript source:
strings are modelled as lists of characters (`Str`), the per-request
analysis pipeline as pure functions, the AI-provider HTTP calls as
explicit outcome parameters, and `Math.random`-driven choices as a
universally quantified choice oracle.  Each embedded definition cites the
source function it translates.
-/

namespace ContentAnalyzer

/-- JavaScript strings are modelled as lists of characters. -/
abbrev Str := List Char

/-- Convenience conversion from Lean string literals to `Str`. -/
def s2l (s : String) : Str := s.data

/-- The JavaScript whitespace class `\s` restricted to the ASCII range
(space, tab, newline, carriage return, vertical tab, form feed). -/
def isWs (c : Char) : Bool :=
  c == ' ' || c == '\t' || c == '\n' || c == '\r' ||
  c == Char.ofNat 11 || c == Char.ofNat 12

/-- Uppercase ASCII letter, the `[A-Z]` class. -/
def isUpperAZ (c : Char) : Bool :=
  decide (65 ≤ c.toNat ∧ c.toNat ≤ 90)

/-- ASCII digit, the `\d` class. -/
def isDigitC (c : Char) : Bool :=
  decide (48 ≤ c.toNat ∧ c.toNat ≤ 57)

/-- The `[A-Z\s]` class of the section-heading regex in `parseAIResponse`. -/
def isUpperOrWs (c : Char) : Bool := isUpperAZ c || isWs c

/-- Bullet markers `[-•*]` used by the list-splitting regexes. -/
def isBulletC (c : Char) : Bool := c == '-' || c == '•' || c == '*'

/-- Whether the first character of `s` is `c`. -/
def headIs (s : Str) (c : Char) : Bool :=
  match s with
  | [] => false
  | x :: _ => x == c

/-- Substring test, the JavaScript `String.prototype.includes`. -/
def containsSub : Str → Str → Bool
  | needle, [] => needle.isEmpty
  | needle, c :: t => needle.isPrefixOf (c :: t) || containsSub needle t

/-- Lowercasing, the JavaScript `toLowerCase` (ASCII-faithful). -/
def lowerStr (s : Str) : Str := s.map Char.toLower

/-- The JavaScript `String.prototype.trim`. -/
def trimStr (s : Str) : Str :=
  ((s.dropWhile isWs).reverse.dropWhile isWs).reverse

/-- Generic split on a single separator character (separator consumed). -/
def splitOnCharAux (sep : Char) : Str → Str → List Str
  | [], acc => [acc.reverse]
  | c :: rest, acc =>
    if c == sep then acc.reverse :: splitOnCharAux sep rest []
    else splitOnCharAux sep rest (c :: acc)

/-- Split a string on a separator character, as JavaScript `split(c)`. -/
def splitOnChar (sep : Char) (s : Str) : List Str := splitOnCharAux sep s []

/-- Split into lines on the newline character. -/
def splitLines (s : Str) : List Str := splitOnChar '\n' s

/-- Rejoin lines with newline characters, inverse of `splitLines`. -/
def joinLines : List Str → Str
  | [] => []
  | [l] => l
  | l :: ls => l ++ '\n' :: joinLines ls

/-- The lookahead `(?=[A-Z\s]+:|\d+\.)` of the section split regex in
`parseAIResponse` (src/unnamed/part_001, line 317): after the newline the
text must start with uppercase/whitespace characters leading to a colon,
or digits leading to a dot.  Since `:` is not in `[A-Z\s]` and `.` is not
a digit, the backtracking regex lookahead is equivalent to checking the
character right after the maximal run. -/
def secLookahead (s : Str) : Bool :=
  (!(s.takeWhile isUpperOrWs).isEmpty && headIs (s.dropWhile isUpperOrWs) ':')
  || (!(s.takeWhile isDigitC).isEmpty && headIs (s.dropWhile isDigitC) '.')

/-- Worker for `splitSections`: cut at each newline whose lookahead holds. -/
def splitSecAux : Str → Str → List Str
  | [], acc => [acc.reverse]
  | c :: rest, acc =>
    if c == '\n' && secLookahead rest then
      acc.reverse :: splitSecAux rest []
    else
      splitSecAux rest (c :: acc)

/-- The section split `aiContent.split(/\n(?=[A-Z\s]+:|\d+\.)/)` of
`parseAIResponse` (src/unnamed/part_001, line 317). -/
def splitSections (s : Str) : List Str := splitSecAux s []

/-- Worker for `splitBul`: cut at `\n` followed by a bullet marker,
consuming both characters.  Fuel `s.length + 1` is always sufficient
because every recursive call consumes at least one character. -/
def splitBulAux : Nat → Str → Str → List Str
  | 0, s, acc => [acc.reverse ++ s]
  | _ + 1, [], acc => [acc.reverse]
  | fuel + 1, c :: rest, acc =>
    if c == '\n' then
      match rest with
      | [] => [(c :: acc).reverse]
      | c2 :: rest2 =>
        if isBulletC c2 then acc.reverse :: splitBulAux fuel rest2 []
        else splitBulAux fuel rest (c :: acc)
    else splitBulAux fuel rest (c :: acc)

/-- The bullet split `section.split(/\n[-•*]/)` of `parseAIResponse`
(src/unnamed/part_001, lines 326, 334). -/
def splitBul (s : Str) : List Str := splitBulAux (s.length + 1) s []

/-- After one leading digit has been seen: consume the remaining digits of
`\d+` and then require the `.`; returns the text after the dot. -/
def afterNumDot : Str → Option Str
  | [] => none
  | c :: rest =>
    if isDigitC c then afterNumDot rest
    else if c == '.' then some rest
    else none

/-- Worker for `splitBulNum`, with fuel for termination; the initial fuel
`s.length + 1` is always sufficient because every recursive call consumes
at least one character. -/
def splitBulNumAux : Nat → Str → Str → List Str
  | 0, s, acc => [acc.reverse ++ s]
  | _ + 1, [], acc => [acc.reverse]
  | fuel + 1, c :: rest, acc =>
    if c == '\n' then
      match rest with
      | [] => [(c :: acc).reverse]
      | c2 :: rest2 =>
        if isBulletC c2 then acc.reverse :: splitBulNumAux fuel rest2 []
        else if isDigitC c2 then
          match afterNumDot rest2 with
          | some r => acc.reverse :: splitBulNumAux fuel r []
          | none => splitBulNumAux fuel rest (c :: acc)
        else splitBulNumAux fuel rest (c :: acc)
    else splitBulNumAux fuel rest (c :: acc)

/-- The numbered-or-bullet split `section.split(/\n[-•*]|\n\d+\./)` of
`parseAIResponse` (src/unnamed/part_001, line 330). -/
def splitBulNum (s : Str) : List Str := splitBulNumAux (s.length + 1) s []

/-- Remove the prefix of the first colon-carrying line up to and including
its first colon; lines with no colon are kept as they are.  This is the
first-match behaviour of `section.replace(/.*?:/, '')` in JavaScript,
where `.` does not match newlines and only the first match is replaced. -/
def stripFirstColonLine : List Str → List Str
  | [] => []
  | l :: ls =>
    if l.contains ':' then ((l.dropWhile (fun c => !(c == ':'))).tail) :: ls
    else l :: stripFirstColonLine ls

/-- The label strip `section.replace(/.*?:/, '')` of `parseAIResponse`
(src/unnamed/part_001, line 323). -/
def stripLabel (s : Str) : Str := joinLines (stripFirstColonLine (splitLines s))

/-! ## Data model (src/unnamed/part_001, `parseAIResponse`) -/

/-- The `metrics` block of a post. -/
structure Metrics where
  views : Nat
  likes : Nat
  comments : Nat
  shares : Nat
  deriving Repr, DecidableEq

/-- A social-media post record as consumed by the analyze handler. -/
structure Post where
  id : Str
  title : Str
  description : Str
  platform : Str
  metrics : Metrics
  engagementRate : Str
  deriving Repr, DecidableEq

/-- The `originalPost` echo embedded in a result
(src/unnamed/part_001, lines 300-305). -/
structure PostSummary where
  title : Str
  platform : Str
  metrics : Metrics
  engagementRate : Str
  deriving Repr, DecidableEq

/-- The `analysis` block of a canonical result. -/
structure Analysis where
  whyViral : Str
  shootIdeas : List Str
  prOutline : List Str
  keyTakeaways : List Str
  deriving Repr, DecidableEq

/-- One normalized AI analysis result, the shape built by
`parseAIResponse` (src/unnamed/part_001, lines 296-356).  The fresh
`new Date().toISOString()` timestamp is modelled as the `now` parameter
threaded through the embedding. -/
structure CanonicalResult where
  postId : Str
  originalPost : PostSummary
  analysis : Analysis
  timestamp : Str
  fullResponse : Option Str
  deriving Repr, DecidableEq

/-- Bullet-list extraction
`section.split(/\n[-•*]/).slice(1).map(s => s.trim()).filter(s => s)`
(src/unnamed/part_001, lines 326, 334). -/
def bulletItems (s : Str) : List Str :=
  (((splitBul s).drop 1).map trimStr).filter (fun x => !x.isEmpty)

/-- Numbered-list extraction
`section.split(/\n[-•*]|\n\d+\./).slice(1).map(s => s.trim()).filter(s => s)`
(src/unnamed/part_001, line 330). -/
def numberedItems (s : Str) : List Str :=
  (((splitBulNum s).drop 1).map trimStr).filter (fun x => !x.isEmpty)

/-- The per-section classification body of the `sections.forEach` loop in
`parseAIResponse` (src/unnamed/part_001, lines 319-337): a fixed
`if/else-if` chain keyed on case-insensitive keyword containment, each
branch overwriting one analysis field of the accumulator. -/
def parseStep (acc : CanonicalResult) (sec : Str) : CanonicalResult :=
  let lowerSec := lowerStr sec
  if containsSub (s2l "why") lowerSec && containsSub (s2l "viral") lowerSec then
    { acc with analysis := { acc.analysis with whyViral := trimStr (stripLabel sec) } }
  else if containsSub (s2l "photo") lowerSec || containsSub (s2l "shoot") lowerSec then
    { acc with analysis := { acc.analysis with shootIdeas := (bulletItems sec).take 5 } }
  else if containsSub (s2l "pr") lowerSec || containsSub (s2l "campaign") lowerSec then
    { acc with analysis := { acc.analysis with prOutline := numberedItems sec } }
  else if containsSub (s2l "takeaway") lowerSec || containsSub (s2l "lesson") lowerSec then
    { acc with analysis := { acc.analysis with keyTakeaways := (bulletItems sec).take 3 } }
  else acc

/-- The `defaultAnalysis` skeleton of `parseAIResponse`
(src/unnamed/part_001, lines 298-313). -/
def initResult (now : Str) (post : Post) : CanonicalResult :=
  { postId := post.id
    originalPost :=
      { title := post.title
        platform := post.platform
        metrics := post.metrics
        engagementRate := post.engagementRate }
    analysis := { whyViral := [], shootIdeas := [], prOutline := [], keyTakeaways := [] }
    timestamp := now
    fullResponse := none }

/-- The state of `defaultAnalysis` after the `sections.forEach` loop of
`parseAIResponse` has run (src/unnamed/part_001, lines 317-337). -/
def parseSectionsPass (now : Str) (aiContent : Str) (post : Post) : CanonicalResult :=
  (splitSections aiContent).foldl parseStep (initResult now post)

/-- The Response Parser `parseAIResponse(aiContent, originalPost)`
(src/unnamed/part_001, lines 296-356).  All string operations used by the
source (`split`, `replace`, `trim`, `substring`) are total on strings, so
the `catch` branch of the source is unreachable and the embedding is a
total function. -/
def parseAIResponse (now : Str) (aiContent : Str) (post : Post) : CanonicalResult :=
  if (parseSectionsPass now aiContent post).analysis.whyViral.isEmpty &&
      (parseSectionsPass now aiContent post).analysis.shootIdeas.isEmpty then
    { parseSectionsPass now aiContent post with
        analysis :=
          { whyViral := aiContent.take 200
            shootIdeas := [s2l "See full analysis for detailed shoot ideas"]
            prOutline := [s2l "See full analysis for PR strategy"]
            keyTakeaways := [s2l "Analysis available in full response"] }
        fullResponse := some aiContent }
  else parseSectionsPass now aiContent post

/-! ## Provider Router (src/unnamed/part_007, class APIRouter) -/

/-- The four AI providers known to the router. -/
inductive Provider where
  | openai
  | grok
  | claude
  | gemini
  deriving Repr, DecidableEq

/-- Display name of a provider, as used in the JavaScript string keys. -/
def providerName : Provider → Str
  | .openai => s2l "openai"
  | .grok => s2l "grok"
  | .claude => s2l "claude"
  | .gemini => s2l "gemini"

/-- The fixed provider list `['openai', 'grok', 'claude', 'gemini']` of
`APIRouter.tryFallback` (src/unnamed/part_007, line 632). -/
def providerPriority : List Provider :=
  [Provider.openai, Provider.grok, Provider.claude, Provider.gemini]

/-- The fallback candidate list
`['openai', 'grok', 'claude', 'gemini'].filter(p => p !== failedProvider && this.providers[p])`
of `APIRouter.tryFallback` (src/unnamed/part_007, lines 632-634);
`registered` models membership in `this.providers`. -/
def fallbackOrder (failed : Provider) (registered : Provider → Bool) : List Provider :=
  providerPriority.filter (fun p => !(p == failed) && registered p)

/-- The plain JavaScript `Error` values thrown by the router: a bare
message string with no further structure. -/
structure RouterError where
  message : Str
  deriving Repr, DecidableEq

/-- The fixed message of the error thrown when the fallback loop is
exhausted (src/unnamed/part_007, line 649). -/
def allProvidersFailedMessage : Str :=
  s2l "All providers failed. Please check your API configurations."

/-- The message of the error thrown by `APIRouter.analyze` when the active
provider is not registered (src/unnamed/part_007, line 505). -/
def providerNotAvailableMessage (p : Provider) : Str :=
  s2l "Provider " ++ providerName p ++ s2l " not available"

/-- The `for (const provider of fallbackOrder)` loop body of
`APIRouter.tryFallback` (src/unnamed/part_007, lines 636-649): try each
candidate in order, return the first success, swallow each failure, and
throw the fixed exhaustion error at the end.  `outcome p` models the
result of `this.providers[p].analyze(prompt)` followed by
`normalizeResponse`, with `.error` carrying the thrown error's message. -/
def runFallbackList {R : Type} (outcome : Provider → Except Str R) :
    List Provider → Except RouterError (Provider × R)
  | [] => .error { message := allProvidersFailedMessage }
  | p :: ps =>
    match outcome p with
    | .ok r => .ok (p, r)
    | .error _ => runFallbackList outcome ps

/-- `APIRouter.tryFallback(params, failedProvider)`
(src/unnamed/part_007, lines 631-650). -/
def tryFallback {R : Type} (outcome : Provider → Except Str R) (failed : Provider)
    (registered : Provider → Bool) : Except RouterError (Provider × R) :=
  runFallbackList outcome (fallbackOrder failed registered)

/-- `APIRouter.analyze` (src/unnamed/part_007, lines 498-523): check the
active provider is registered, try it, and on failure hand over to
`tryFallback` with the active provider marked as failed. -/
def routerAnalyze {R : Type} (outcome : Provider → Except Str R) (active : Provider)
    (registered : Provider → Bool) : Except RouterError (Provider × R) :=
  if registered active then
    match outcome active with
    | .ok r => .ok (active, r)
    | .error _ => tryFallback outcome active registered
  else .error { message := providerNotAvailableMessage active }

/-- Modelled from the claim's words, for comparison with `fallbackOrder`:
the remaining providers "in exactly the fixed priority order openai,
claude, gemini, grok, skipping unconfigured ones". -/
def claimedFallbackOrder (failed : Provider) (registered : Provider → Bool) : List Provider :=
  [Provider.openai, Provider.claude, Provider.gemini, Provider.grok].filter
    (fun p => !(p == failed) && registered p)

/-! ## Analyze handler and demo fallback (src/unnamed/part_001) -/

/-- The apostrophe character, kept out of string literals. -/
def apos : Char := Char.ofNat 39

/-- The `whyViral` text of the synthesized demo analysis
(src/unnamed/part_001, line 369). -/
def demoWhyViral : Str :=
  s2l "This content leverages emotional storytelling, trend-jacking, and platform-specific optimization. The hook creates curiosity while the value proposition is immediately clear, driving high engagement through shareability and relatability."

/-- The `shootIdeas` list of the synthesized demo analysis
(src/unnamed/part_001, lines 370-376). -/
def demoShootIdeas : List Str :=
  [ s2l "Hero Shot: Low-angle perspective with subject against dramatic sky, shot during golden hour with 85mm lens at f/1.8 for beautiful bokeh. Position subject off-center using rule of thirds."
  , s2l "Behind-the-Scenes Documentary: Handheld camera following the process, using natural light with occasional LED panel fill. Capture candid moments and reactions at 24fps for cinematic feel."
  , s2l "Before/After Transformation: Consistent lighting setup with two softboxes at 45-degree angles. Use tripod for exact framing match. Shoot at f/8 for sharp details throughout."
  , s2l "Lifestyle Integration: Environmental portrait showing product/service in real use. Mix of wide establishing shots (24mm) and intimate close-ups (50mm). Natural light supplemented with reflector."
  , s2l "Motion Sequence: Capture dynamic action using 1/1000 shutter speed to freeze motion or 1/15 for intentional blur. Use continuous AF tracking and burst mode for best moments." ]

/-- The `prOutline` list of the synthesized demo analysis
(src/unnamed/part_001, lines 377-383). -/
def demoPROutline : List Str :=
  [ s2l "Day 1-2: Draft compelling press release highlighting the unique angle and newsworthiness. Include statistics and expert quotes."
  , s2l "Day 3-5: Research and compile media list of 50+ relevant journalists, bloggers, and influencers in the niche. Personalize pitches."
  , s2l "Day 6-7: Launch coordinated social media campaign across all platforms. Use scheduling tools for optimal timing."
  , s2l "Day 8-10: Conduct targeted outreach to media contacts. Follow up with non-responders. Offer exclusive angles to top-tier media."
  , s2l "Day 11-14: Amplify coverage through paid promotion. Engage with all comments and shares. Document metrics for case study." ]

/-- The `keyTakeaways` list of the synthesized demo analysis
(src/unnamed/part_001, lines 384-388); the second entry contains an
apostrophe, spliced in as a character. -/
def demoKeyTakeaways : List Str :=
  [ s2l "Emotional resonance drives virality more than production value - focus on authentic storytelling"
  , s2l "Platform-specific optimization is crucial - what works on TikTok won" ++
      apos :: s2l "t necessarily work on LinkedIn"
  , s2l "Timing and consistency matter - post when your audience is most active and maintain regular cadence" ]

/-- The fixed demo analysis block synthesized by `generateAIAnalysis`
(src/unnamed/part_001, lines 368-389). -/
def demoAnalysis : Analysis :=
  { whyViral := demoWhyViral
    shootIdeas := demoShootIdeas
    prOutline := demoPROutline
    keyTakeaways := demoKeyTakeaways }

/-- The per-post demo result of `generateAIAnalysis`
(src/unnamed/part_001, lines 360-391). -/
def demoResultFor (now : Str) (post : Post) : CanonicalResult :=
  { postId := post.id
    originalPost :=
      { title := post.title
        platform := post.platform
        metrics := post.metrics
        engagementRate := post.engagementRate }
    analysis := demoAnalysis
    timestamp := now
    fullResponse := none }

/-- `generateAIAnalysis(posts, analysisType)` (src/unnamed/part_001,
lines 359-392): synthesize a fixed demo analysis for every post; the
`analysisType` argument is accepted and ignored, as in the source. -/
def generateAIAnalysis (now : Str) (posts : List Post) (_analysisType : Str) :
    List CanonicalResult :=
  posts.map (demoResultFor now)

/-- One provider-backed analysis path, the common shape of
`analyzeWithOpenAI` / `analyzeWithAnthropic` / `analyzeWithGemini` /
`analyzeWithGrok` (src/unnamed/part_001, lines 98-257): if the API key is
missing, return the demo analysis; if the provider call throws, return
the demo analysis; otherwise parse each per-post completion text.
`call` models the batch of HTTP completions, giving the model's reply
text for each post. -/
def analyzeViaKey (now : Str) (posts : List Post) (analysisType : Str)
    (apiKey : Option Str) (call : Except Str (Post → Str)) : List CanonicalResult :=
  match apiKey with
  | none => generateAIAnalysis now posts analysisType
  | some _ =>
    match call with
    | .ok content => posts.map (fun p => parseAIResponse now (content p) p)
    | .error _ => generateAIAnalysis now posts analysisType

/-- `analyzeWithOpenAI` (src/unnamed/part_001, lines 98-138). -/
def analyzeWithOpenAI (now : Str) (posts : List Post) (analysisType : Str)
    (apiKey : Option Str) (call : Except Str (Post → Str)) : List CanonicalResult :=
  analyzeViaKey now posts analysisType apiKey call

/-- `analyzeWithAnthropic` (src/unnamed/part_001, lines 141-177). -/
def analyzeWithAnthropic (now : Str) (posts : List Post) (analysisType : Str)
    (apiKey : Option Str) (call : Except Str (Post → Str)) : List CanonicalResult :=
  analyzeViaKey now posts analysisType apiKey call

/-- `analyzeWithGemini` (src/unnamed/part_001, lines 180-208). -/
def analyzeWithGemini (now : Str) (posts : List Post) (analysisType : Str)
    (apiKey : Option Str) (call : Except Str (Post → Str)) : List CanonicalResult :=
  analyzeViaKey now posts analysisType apiKey call

/-- `analyzeWithGrok` (src/unnamed/part_001, lines 211-257). -/
def analyzeWithGrok (now : Str) (posts : List Post) (analysisType : Str)
    (apiKey : Option Str) (call : Except Str (Post → Str)) : List CanonicalResult :=
  analyzeViaKey now posts analysisType apiKey call

/-- The environment of the analyze handler: the four provider credentials
from `process.env` and the outcome of each provider's HTTP call. -/
structure ProviderEnv where
  openaiKey : Option Str
  anthropicKey : Option Str
  geminiKey : Option Str
  grokKey : Option Str
  openaiCall : Except Str (Post → Str)
  anthropicCall : Except Str (Post → Str)
  geminiCall : Except Str (Post → Str)
  grokCall : Except Str (Post → Str)

/-- The success body `{success: true, provider, analysisType, results}`
serialized by the analyze handler (src/unnamed/part_001, lines 71-76). -/
structure HandlerBody where
  success : Bool
  provider : Str
  analysisType : Str
  results : List CanonicalResult
  deriving Repr, DecidableEq

/-- A handler response: HTTP status plus either a success body or an
error message body. -/
inductive HandlerOutcome where
  | success (body : HandlerBody)
  | failure (message : Str)
  deriving Repr, DecidableEq

/-- The HTTP response returned by the analyze handler. -/
structure HandlerResponse where
  statusCode : Nat
  outcome : HandlerOutcome
  deriving Repr, DecidableEq

/-- The `switch (provider)` dispatch of the analyze handler
(src/unnamed/part_001, lines 42-64), with `generateAIAnalysis` as the
default branch. -/
def dispatchProvider (now : Str) (env : ProviderEnv) (postsToAnalyze : List Post)
    (provider analysisType : Str) : List CanonicalResult :=
  if provider = s2l "openai" then
    analyzeWithOpenAI now postsToAnalyze analysisType env.openaiKey env.openaiCall
  else if provider = s2l "anthropic" ∨ provider = s2l "claude" then
    analyzeWithAnthropic now postsToAnalyze analysisType env.anthropicKey env.anthropicCall
  else if provider = s2l "gemini" ∨ provider = s2l "google" then
    analyzeWithGemini now postsToAnalyze analysisType env.geminiKey env.geminiCall
  else if provider = s2l "grok" ∨ provider = s2l "xai" then
    analyzeWithGrok now postsToAnalyze analysisType env.grokKey env.grokCall
  else
    generateAIAnalysis now postsToAnalyze analysisType

/-- The analyze handler body after rate limiting and body parsing
(src/unnamed/part_001, lines 27-77): validate the posts array, keep only
the first five posts (`posts.slice(0, 5)`, line 38), dispatch on the
`provider` string, and wrap the result in a 200 success envelope.  The
HTTP-method check, rate limiter, and JSON body parsing sit outside the
modelled scope. -/
def analyzeHandler (now : Str) (env : ProviderEnv) (posts : List Post)
    (provider analysisType : Str) : HandlerResponse :=
  if posts.isEmpty then
    { statusCode := 400, outcome := .failure (s2l "Missing or invalid posts array") }
  else
    { statusCode := 200
      outcome := .success
        { success := true
          provider := provider
          analysisType := analysisType
          results := dispatchProvider now env (posts.take 5) provider analysisType } }

/-! ## Result Enhancer (src/unnamed/part_004, class ResponseEnhancer)

The enhancer's `selectRandom` draws from `Math.random`.  Randomness is
modelled as a choice oracle passed explicitly: `pick1` stands for
`selectRandom(array)` and `pick2` for `selectRandom(array, 2)`.  All
theorems below quantify over every oracle, so they hold for every
sequence of random draws; the oracle's choices affect only the content of
the produced records, never their number. -/

/-- Choice oracle standing in for the `Math.random`-driven `selectRandom`
(src/unnamed/part_004, lines 515-522). -/
structure RandomChoice where
  pick1 : List Str → Str
  pick2 : List Str → List Str

/-- The `lighting` template catalog (src/unnamed/part_004, lines 17-25). -/
def lightingTemplates : List Str :=
  [ s2l "Golden hour with warm backlighting creating a halo effect"
  , s2l "Soft natural light through sheer curtains for ethereal mood"
  , s2l "Dramatic side lighting with deep shadows for contrast"
  , s2l "Studio setup with key light at 45° and fill light for balance"
  , s2l "Blue hour twilight with ambient city lights"
  , s2l "High-key lighting for bright, airy feel"
  , s2l "Low-key lighting for moody, dramatic atmosphere" ]

/-- The `angles` template catalog (src/unnamed/part_004, lines 26-34);
two entries contain apostrophes, spliced in as characters. -/
def angleTemplates : List Str :=
  [ s2l "Low angle shot from ground level for heroic perspective"
  , s2l "Bird" ++ apos :: s2l "s eye view from directly above for unique composition"
  , s2l "Dutch angle (tilted) for dynamic energy"
  , s2l "Eye-level for natural, relatable perspective"
  , s2l "Over-the-shoulder for intimate viewpoint"
  , s2l "Worm" ++ apos :: s2l "s eye view looking up through elements"
  , s2l "Profile shot at 90° for dramatic silhouette" ]

/-- The `composition` template catalog (src/unnamed/part_004, lines 35-43). -/
def compositionTemplates : List Str :=
  [ s2l "Rule of thirds with subject at intersection points"
  , s2l "Leading lines drawing eye to focal point"
  , s2l "Frame within frame using natural elements"
  , s2l "Negative space for minimalist impact"
  , s2l "Symmetrical balance for harmony"
  , s2l "Golden spiral for natural flow"
  , s2l "Depth layers with foreground, middle, background" ]

/-- The `equipment` template catalog (src/unnamed/part_004, lines 44-52). -/
def equipmentTemplates : List Str :=
  [ s2l "85mm lens for flattering portrait compression"
  , s2l "24mm wide angle for environmental context"
  , s2l "50mm for natural perspective"
  , s2l "Reflector to fill shadows"
  , s2l "Diffuser for soft light"
  , s2l "Tripod for stability"
  , s2l "ND filter for motion blur in daylight" ]

/-- The `pressRelease` template (src/unnamed/part_004, lines 61-82),
whitespace-faithful modulo the surrounding indentation of the literal. -/
def pressReleaseTemplate : Str :=
  s2l "FOR IMMEDIATE RELEASE\n\n[HEADLINE]\n\n[CITY, Date] - [Lead paragraph with who, what, where, when, why]\n\n[Body paragraph 1 - Expand on the news]\n\n[Body paragraph 2 - Include quote from key person]\n\n[Body paragraph 3 - Additional details and context]\n\nAbout [Company Name]\n[Company boilerplate]\n\nContact:\n[Name]\n[Title]\n[Email]\n[Phone]"

/-- The `outreachEmail` template (src/unnamed/part_004, lines 83-101). -/
def outreachEmailTemplate : Str :=
  s2l "Subject: [Compelling subject line]\n\nHi [Name],\n\nI noticed you recently covered [relevant topic] and thought you might be interested in [your news].\n\n[Brief pitch - 2-3 sentences]\n\nKey points:\n• [Point 1]\n• [Point 2]\n• [Point 3]\n\nWould you like more information or high-res images?\n\nBest regards,\n[Your name]"

/-- The `socialPost` template (src/unnamed/part_004, lines 102-114). -/
def socialPostTemplate : Str :=
  s2l "🚀 [Attention-grabbing opener]\n\n[Main message - 1-2 sentences]\n\n✅ [Benefit 1]\n✅ [Benefit 2]\n✅ [Benefit 3]\n\n[Call to action]\n\n#[Hashtag1] #[Hashtag2] #[Hashtag3]"

/-- Camera settings record generated by `generateCameraSettings`
(src/unnamed/part_004, lines 225-232). -/
structure CameraSettings where
  aperture : Str
  shutterSpeed : Str
  iso : Str
  whiteBalance : Str
  deriving Repr, DecidableEq

/-- The `technical` block of an enhanced shoot description. -/
structure TechnicalSpec where
  lighting : Str
  angle : Str
  composition : Str
  equipment : List Str
  settings : CameraSettings
  deriving Repr, DecidableEq

/-- An enhanced shoot description, the record built by
`createDetailedShootDescription` (src/unnamed/part_004, lines 180-207). -/
structure ShootDetail where
  title : Str
  description : Str
  technical : TechnicalSpec
  references : List Str
  tips : List Str
  deriving Repr, DecidableEq

/-- An enhanced PR step, the record built by `createDetailedPRStep`
(src/unnamed/part_004, lines 260-273). -/
structure PRStepDetail where
  step : Nat
  title : Str
  description : Str
  timeline : Str
  actions : List Str
  targets : List Str
  templates : List Str
  metrics : List Str
  deriving Repr, DecidableEq

/-- `generateCameraSettings` (src/unnamed/part_004, lines 225-232). -/
def generateCameraSettings (rng : RandomChoice) : CameraSettings :=
  { aperture := s2l "f/" ++ rng.pick1 [s2l "1.4", s2l "2.8", s2l "4", s2l "5.6", s2l "8"]
    shutterSpeed := s2l "1/" ++ rng.pick1 [s2l "60", s2l "125", s2l "250", s2l "500", s2l "1000"]
    iso := rng.pick1 [s2l "100", s2l "200", s2l "400", s2l "800"]
    whiteBalance := rng.pick1 [s2l "Daylight", s2l "Cloudy", s2l "Shade", s2l "Custom"] }

/-- `extractTitle` (src/unnamed/part_004, lines 492-496): `indexOf('.')`
yields `-1` when absent, so `endIndex = min(indexOf, 50)` is only used
when strictly positive. -/
def extractTitle (text : Str) : Str :=
  let idx : Int := match text.findIdx? (fun c => c == '.') with
    | some n => (n : Int)
    | none => -1
  let endIndex : Int := min idx 50
  if endIndex > 0 then text.take endIndex.toNat else text.take 50

/-- `extractKeyword` (src/unnamed/part_004, lines 503-507). -/
def extractKeyword (text : Str) : Str :=
  let words := (splitOnChar ' ' text).filter (fun w => 4 < w.length)
  match words with
  | [] => s2l "photography"
  | w :: _ => w

/-- URL-escaping `encodeURIComponent` is modelled as the identity: the
escaping of individual characters plays no role in any verified
property, while the URL structure around it is kept faithful. -/
def encodeURIComponent (s : Str) : Str := s

/-- `createDetailedShootDescription(basicIdea)`
(src/unnamed/part_004, lines 180-207). -/
def createDetailedShootDescription (rng : RandomChoice) (basicIdea : Str) : ShootDetail :=
  let lighting := rng.pick1 lightingTemplates
  let angle := rng.pick1 angleTemplates
  let composition := rng.pick1 compositionTemplates
  let equipment := rng.pick2 equipmentTemplates
  { title := extractTitle basicIdea
    description := basicIdea ++ s2l ". Shot with " ++ lighting ++ s2l ". Camera positioned at " ++
      angle ++ s2l ". Composed using " ++ composition ++ s2l "."
    technical :=
      { lighting := lighting
        angle := angle
        composition := composition
        equipment := equipment
        settings := generateCameraSettings rng }
    references :=
      [ s2l "https://pinterest.com/search/pins/?q=" ++ encodeURIComponent basicIdea
      , s2l "https://unsplash.com/s/photos/" ++ encodeURIComponent (extractKeyword basicIdea) ]
    tips :=
      [ s2l "Scout location during similar time/weather conditions"
      , s2l "Bring backup equipment and batteries"
      , s2l "Take test shots to dial in settings"
      , s2l "Capture multiple variations of each setup" ] }

/-- `generateDefaultShootIdeas` (src/unnamed/part_004, lines 213-219). -/
def generateDefaultShootIdeas (rng : RandomChoice) : List ShootDetail :=
  [ createDetailedShootDescription rng (s2l "Hero product shot with lifestyle context")
  , createDetailedShootDescription rng (s2l "Behind-the-scenes documentary style")
  , createDetailedShootDescription rng (s2l "User testimonial with authentic emotion") ]

/-- `ResponseEnhancer.enhanceShootDescriptions(basicIdeas)`
(src/unnamed/part_004, lines 159-173): enhance each given idea, or
synthesize the three defaults when the list is empty. -/
def enhanceShootDescriptions (rng : RandomChoice) (basicIdeas : List Str) : List ShootDetail :=
  if 0 < basicIdeas.length then
    basicIdeas.map (createDetailedShootDescription rng)
  else
    generateDefaultShootIdeas rng

/-- `getTimelineForStep(order)` (src/unnamed/part_004, lines 474-485). -/
def getTimelineForStep (order : Nat) : Str :=
  let timelines :=
    [ s2l "Day 1-2", s2l "Day 3-5", s2l "Day 6-10"
    , s2l "Day 11-14", s2l "Day 15-21", s2l "Day 22-30" ]
  timelines.getD (min (order - 1) (timelines.length - 1)) []

/-- `generateActionsForStep(step)` (src/unnamed/part_004, lines 359-391). -/
def generateActionsForStep (step : Str) : List Str :=
  let keywords := lowerStr step
  if containsSub (s2l "press") keywords || containsSub (s2l "release") keywords then
    [ s2l "Draft compelling headline", s2l "Write newsworthy lead"
    , s2l "Include relevant quotes", s2l "Add multimedia assets" ]
  else if containsSub (s2l "social") keywords || containsSub (s2l "media") keywords then
    [ s2l "Create engaging content", s2l "Design eye-catching visuals"
    , s2l "Use relevant hashtags", s2l "Engage with audience" ]
  else if containsSub (s2l "email") keywords || containsSub (s2l "outreach") keywords then
    [ s2l "Research contact list", s2l "Personalize messages"
    , s2l "Follow up strategically", s2l "Track responses" ]
  else
    [ s2l "Define objectives", s2l "Execute plan"
    , s2l "Monitor progress", s2l "Optimize based on results" ]

/-- `generateTargetsForStep(step)` (src/unnamed/part_004, lines 398-429). -/
def generateTargetsForStep (step : Str) : List Str :=
  let keywords := lowerStr step
  if containsSub (s2l "media") keywords || containsSub (s2l "journalist") keywords then
    [ s2l "@TechCrunch", s2l "@TheVerge", s2l "@Wired", s2l "Industry reporters" ]
  else if containsSub (s2l "influencer") keywords then
    [ s2l "Micro-influencers (10K-100K followers)", s2l "Industry thought leaders"
    , s2l "Brand ambassadors", s2l "Content creators" ]
  else if containsSub (s2l "social") keywords then
    [ s2l "Twitter/X audience", s2l "LinkedIn professionals"
    , s2l "Instagram community", s2l "Facebook groups" ]
  else
    [ s2l "Target audience segment", s2l "Key stakeholders", s2l "Industry community" ]

/-- `getTemplatesForStep(step)` (src/unnamed/part_004, lines 436-448). -/
def getTemplatesForStep (step : Str) : List Str :=
  let keywords := lowerStr step
  if containsSub (s2l "press") keywords && containsSub (s2l "release") keywords then
    [pressReleaseTemplate]
  else if containsSub (s2l "email") keywords || containsSub (s2l "outreach") keywords then
    [outreachEmailTemplate]
  else if containsSub (s2l "social") keywords then
    [socialPostTemplate]
  else
    []

/-- `generateMetricsForStep(step)` (src/unnamed/part_004, lines 455-467). -/
def generateMetricsForStep (step : Str) : List Str :=
  let keywords := lowerStr step
  if containsSub (s2l "press") keywords || containsSub (s2l "media") keywords then
    [ s2l "Media mentions", s2l "Reach", s2l "Share of voice" ]
  else if containsSub (s2l "social") keywords then
    [ s2l "Engagement rate", s2l "Follower growth", s2l "Click-through rate" ]
  else if containsSub (s2l "email") keywords then
    [ s2l "Open rate", s2l "Response rate", s2l "Conversion rate" ]
  else
    [ s2l "Completion rate", s2l "Quality score", s2l "ROI" ]

/-- `createDetailedPRStep(basicStep, order)`
(src/unnamed/part_004, lines 260-273). -/
def createDetailedPRStep (basicStep : Str) (order : Nat) : PRStepDetail :=
  { step := order
    title := extractTitle basicStep
    description := basicStep
    timeline := getTimelineForStep order
    actions := generateActionsForStep basicStep
    targets := generateTargetsForStep basicStep
    templates := getTemplatesForStep basicStep
    metrics := generateMetricsForStep basicStep }

/-- `generateDefaultPRCampaign` (src/unnamed/part_004, lines 279-352). -/
def generateDefaultPRCampaign : List PRStepDetail :=
  [ { step := 1
      title := s2l "Draft Press Release"
      description := s2l "Create compelling press release with key messages"
      timeline := s2l "Day 1-2"
      actions :=
        [ s2l "Write headline and lead paragraph", s2l "Include 2-3 key quotes"
        , s2l "Add company boilerplate", s2l "Prepare high-res images" ]
      targets := [ s2l "Press release distribution services", s2l "Company blog" ]
      templates := [pressReleaseTemplate]
      metrics := [ s2l "Press release views", s2l "Media pickups" ] }
  , { step := 2
      title := s2l "Media Outreach"
      description := s2l "Contact relevant journalists and influencers"
      timeline := s2l "Day 3-5"
      actions :=
        [ s2l "Research relevant media contacts", s2l "Personalize pitch emails"
        , s2l "Send initial outreach", s2l "Schedule follow-ups" ]
      targets :=
        [ s2l "@techcrunch", s2l "@forbes", s2l "@businessinsider"
        , s2l "Industry-specific publications" ]
      templates := [outreachEmailTemplate]
      metrics := [ s2l "Email open rate", s2l "Response rate", s2l "Meeting scheduled" ] }
  , { step := 3
      title := s2l "Social Media Campaign"
      description := s2l "Launch coordinated social media push"
      timeline := s2l "Day 6-14"
      actions :=
        [ s2l "Create content calendar", s2l "Design visual assets"
        , s2l "Schedule posts across platforms", s2l "Engage with responses" ]
      targets := [ s2l "Twitter/X", s2l "LinkedIn", s2l "Instagram", s2l "Facebook" ]
      templates := [socialPostTemplate]
      metrics := [ s2l "Reach", s2l "Engagement rate", s2l "Click-through rate" ] }
  , { step := 4
      title := s2l "Monitor and Measure"
      description := s2l "Track results and optimize"
      timeline := s2l "Day 15-30"
      actions :=
        [ s2l "Monitor media mentions", s2l "Track website traffic"
        , s2l "Analyze social metrics", s2l "Prepare campaign report" ]
      targets :=
        [ s2l "Google Analytics", s2l "Social media analytics"
        , s2l "Media monitoring tools" ]
      templates := []
      metrics := [ s2l "Total reach", s2l "Media value", s2l "Lead generation", s2l "ROI" ] } ]

/-- `ResponseEnhancer.enhancePROutline(basicOutline)`
(src/unnamed/part_004, lines 239-252): enhance each given step with its
1-based order, or synthesize the fixed four-step default campaign when
the list is empty. -/
def enhancePROutline (basicOutline : List Str) : List PRStepDetail :=
  if 0 < basicOutline.length then
    basicOutline.mapIdx (fun i step => createDetailedPRStep step (i + 1))
  else
    generateDefaultPRCampaign

/-! ## SecureStorage (src/unnamed/part_010, class SecureStorage)

Browser strings stored through `btoa`/`atob` are sequences of UTF-16 code
units; `btoa` requires every unit to be below 256 (the "storable
character range") and treats them as bytes.  Keys and salts are therefore
modelled as lists of natural numbers.  `localStorage` is modelled as an
association list from string names to stored byte lists. -/

/-- ASCII code of the base64 alphabet character with index `n < 64`. -/
def b64Char (n : Nat) : Nat :=
  if n < 26 then 65 + n
  else if n < 52 then 97 + (n - 26)
  else if n < 62 then 48 + (n - 52)
  else if n = 62 then 43
  else 47

/-- Inverse base64 alphabet lookup used by `atob`; `none` on characters
outside the alphabet. -/
def b64Val (c : Nat) : Option Nat :=
  if 65 ≤ c ∧ c ≤ 90 then some (c - 65)
  else if 97 ≤ c ∧ c ≤ 122 then some (c - 97 + 26)
  else if 48 ≤ c ∧ c ≤ 57 then some (c - 48 + 52)
  else if c = 43 then some 62
  else if c = 47 then some 63
  else none

/-- Base64 encoding core of `btoa`: three bytes become four alphabet
characters, with `=` (code 61) padding for a trailing one- or two-byte
group. -/
def btoaAux : List Nat → List Nat
  | [] => []
  | [a] => [b64Char (a / 4), b64Char (a % 4 * 16), 61, 61]
  | [a, b] => [b64Char (a / 4), b64Char (a % 4 * 16 + b / 16), b64Char (b % 16 * 4), 61]
  | a :: b :: c :: rest =>
    b64Char (a / 4) :: b64Char (a % 4 * 16 + b / 16) :: b64Char (b % 16 * 4 + c / 64) ::
      b64Char (c % 64) :: btoaAux rest

/-- The browser `btoa`: defined exactly when every code unit is below
256, throwing (modelled as `none`) otherwise. -/
def btoaJS (l : List Nat) : Option (List Nat) :=
  if l.all (fun b => decide (b < 256)) then some (btoaAux l) else none

/-- The browser `atob` on well-formed base64 input: groups of four
alphabet characters decode to three bytes, a final `=`-padded group to
one or two; `none` models the exception thrown on malformed input. -/
def atobAux : List Nat → Option (List Nat)
  | [] => some []
  | w :: x :: y :: z :: rest =>
    match b64Val w, b64Val x with
    | some v1, some v2 =>
      if y = 61 ∧ z = 61 then
        if rest = [] then some [v1 * 4 + v2 / 16] else none
      else if z = 61 then
        match b64Val y with
        | some v3 =>
          if rest = [] then some [v1 * 4 + v2 / 16, v2 % 16 * 16 + v3 / 4] else none
        | none => none
      else
        match b64Val y, b64Val z with
        | some v3, some v4 =>
          match atobAux rest with
          | some bs =>
            some ((v1 * 4 + v2 / 16) :: (v2 % 16 * 16 + v3 / 4) :: (v3 % 4 * 64 + v4) :: bs)
          | none => none
        | _, _ => none
    | _, _ => none
  | _ => none

/-- The browser `localStorage`, as an association list. -/
abbrev JSStorage := List (String × List Nat)

/-- `localStorage.getItem(k)`. -/
def getItem (st : JSStorage) (k : String) : Option (List Nat) :=
  (st.find? (fun kv => kv.1 == k)).map (fun kv => kv.2)

/-- `localStorage.setItem(k, v)`. -/
def setItem (st : JSStorage) (k : String) (v : List Nat) : JSStorage :=
  (k, v) :: st.filter (fun kv => !(kv.1 == k))

/-- `localStorage.removeItem(k)`. -/
def removeItem (st : JSStorage) (k : String) : JSStorage :=
  st.filter (fun kv => !(kv.1 == k))

/-- The storage name `` `api_${provider}_secure` `` used by
`SecureStorage.saveKey`/`getKey` (src/unnamed/part_010, lines 45, 54). -/
def secureKeyName (provider : String) : String := "api_" ++ provider ++ "_secure"

/-- The legacy storage name `` `${provider}ApiKey` ``
(src/unnamed/part_010, line 57). -/
def legacyKeyName (provider : String) : String := provider ++ "ApiKey"

/-- `SecureStorage.encode(data) = btoa(this.salt + data)`
(src/unnamed/part_010, lines 90-95); `none` models the `btoa` exception
on characters outside the storable range. -/
def encode (salt data : List Nat) : Option (List Nat) :=
  btoaJS (salt ++ data)

/-- `SecureStorage.decode(encoded) = atob(encoded).substring(salt.length)`
(src/unnamed/part_010, lines 102-107); `none` models the `atob`
exception on malformed input. -/
def decode (salt encoded : List Nat) : Option (List Nat) :=
  (atobAux encoded).map (fun d => d.drop salt.length)

/-- `SecureStorage.removeKey(provider)` (src/unnamed/part_010,
lines 79-83): drop both the secure and the legacy entry. -/
def removeKey (st : JSStorage) (provider : String) : JSStorage :=
  removeItem (removeItem st (secureKeyName provider)) (legacyKeyName provider)

/-- `SecureStorage.saveKey(provider, key)` (src/unnamed/part_010,
lines 38-46): a falsy (empty) key removes the stored entry instead of
saving; otherwise the encoded key is stored under the secure name.
`none` models an uncaught `btoa` exception. -/
def saveKey (salt : List Nat) (st : JSStorage) (provider : String) (key : List Nat) :
    Option JSStorage :=
  if key = [] then some (removeKey st provider)
  else (encode salt key).map (fun e => setItem st (secureKeyName provider) e)

/-- `SecureStorage.getKey(provider)` (src/unnamed/part_010, lines 53-73):
read the secure entry and decode it (a decode failure is caught and
yields `null`); with no secure entry, migrate a legacy entry if present.
The result pairs the returned value with the possibly-updated storage;
the outer `none` models an uncaught exception during legacy migration. -/
def getKey (salt : List Nat) (st : JSStorage) (provider : String) :
    Option (Option (List Nat) × JSStorage) :=
  match getItem st (secureKeyName provider) with
  | some encoded =>
    some (match decode salt encoded with
          | some k => (some k, st)
          | none => (none, st))
  | none =>
    match getItem st (legacyKeyName provider) with
    | some legacy =>
      match saveKey salt st provider legacy with
      | some st2 => some (some legacy, removeItem st2 (legacyKeyName provider))
      | none => none
    | none => some (none, st)

/-! ## Section classification, named (used to state the C6 precedence) -/

/-- The four analysis fields a heading-split section can be routed to,
plus the drop case. -/
inductive SectionClass where
  | viralSec
  | shootSec
  | prSec
  | takeawaySec
  | otherSec
  deriving Repr, DecidableEq

/-- Case-insensitive keyword containment, the `lowerSection.includes(k)`
tests of `parseAIResponse`. -/
abbrev hasKeyword (k : String) (sec : Str) : Prop :=
  containsSub (s2l k) (lowerStr sec) = true

/-- The classification of one section in the first-match-wins precedence
the source implements: a section goes to `whyViral` exactly when it
contains both "why" and "viral" (case-insensitive), else to `shootIdeas`
on "photo"/"shoot", else to `prOutline` on "pr"/"campaign", else to
`keyTakeaways` on "takeaway"/"lesson", else nowhere. -/
def specSectionClass (sec : Str) : SectionClass :=
  if hasKeyword "why" sec ∧ hasKeyword "viral" sec then .viralSec
  else if hasKeyword "photo" sec ∨ hasKeyword "shoot" sec then .shootSec
  else if hasKeyword "pr" sec ∨ hasKeyword "campaign" sec then .prSec
  else if hasKeyword "takeaway" sec ∨ hasKeyword "lesson" sec then .takeawaySec
  else .otherSec

/-- The field update each classification performs on the accumulated
result, per the source's `forEach` body. -/
def applySectionClass (c : SectionClass) (acc : CanonicalResult) (sec : Str) : CanonicalResult :=
  match c with
  | .viralSec =>
    { acc with analysis := { acc.analysis with whyViral := trimStr (stripLabel sec) } }
  | .shootSec =>
    { acc with analysis := { acc.analysis with shootIdeas := (bulletItems sec).take 5 } }
  | .prSec =>
    { acc with analysis := { acc.analysis with prOutline := numberedItems sec } }
  | .takeawaySec =>
    { acc with analysis := { acc.analysis with keyTakeaways := (bulletItems sec).take 3 } }
  | .otherSec => acc

/-! ## Concrete fixtures used by witnesses and counterexamples -/

/-- A concrete post with the given identifier. -/
def mkPost (ident : String) : Post :=
  { id := s2l ident
    title := s2l "T"
    description := s2l "D"
    platform := s2l "demo"
    metrics := { views := 0, likes := 0, comments := 0, shares := 0 }
    engagementRate := s2l "0" }

/-- A concrete test post. -/
def testPost : Post := mkPost "p1"

/-- Six concrete posts, more than the handler's limit of five. -/
def sixPosts : List Post :=
  [mkPost "p1", mkPost "p2", mkPost "p3", mkPost "p4", mkPost "p5", mkPost "p6"]

/-- A handler environment with no provider credential configured. -/
def noKeyEnv : ProviderEnv :=
  { openaiKey := none
    anthropicKey := none
    geminiKey := none
    grokKey := none
    openaiCall := .error (s2l "not called")
    anthropicCall := .error (s2l "not called")
    geminiCall := .error (s2l "not called")
    grokCall := .error (s2l "not called") }

/-- A provider outcome where every provider fails with one message. -/
def failAllA : Provider → Except Str Unit := fun _ => .error (s2l "OpenAI 500")

/-- A provider outcome where every provider fails with another message. -/
def failAllB : Provider → Except Str Unit := fun _ => .error (s2l "Gemini timeout")

/-- A concrete choice oracle: always the first catalog entry, and the
first two entries for paired picks. -/
def rng0 : RandomChoice :=
  { pick1 := fun l => l.headD []
    pick2 := fun l => l.take 2 }

end ContentAnalyzer

namespace ContentAnalyzer

/-! ## Theorems -/

/-- Per-section classification never changes the `postId` field. -/
lemma parseStep_postId (acc : CanonicalResult) (sec : Str) :
    (parseStep acc sec).postId = acc.postId := by
  simp only [parseStep]
  split_ifs <;> rfl

/-- Per-section classification never changes the `timestamp` field. -/
lemma parseStep_timestamp (acc : CanonicalResult) (sec : Str) :
    (parseStep acc sec).timestamp = acc.timestamp := by
  simp only [parseStep]
  split_ifs <;> rfl

/-- The `forEach` pass over all sections preserves `postId`. -/
lemma foldl_parseStep_postId (secs : List Str) :
    ∀ acc : CanonicalResult, (secs.foldl parseStep acc).postId = acc.postId := by
  induction secs with
  | nil => intro acc; rfl
  | cons s t ih => intro acc; rw [List.foldl_cons, ih, parseStep_postId]

/-- The `forEach` pass over all sections preserves `timestamp`. -/
lemma foldl_parseStep_timestamp (secs : List Str) :
    ∀ acc : CanonicalResult, (secs.foldl parseStep acc).timestamp = acc.timestamp := by
  induction secs with
  | nil => intro acc; rfl
  | cons s t ih => intro acc; rw [List.foldl_cons, ih, parseStep_timestamp]

/-- C1: for every string input and every post carrying an id, the
Response Parser `parseAIResponse` returns a CanonicalResult whose
`postId` equals the post's id and whose `timestamp` is the fresh
timestamp of the call.  Totality — the "never raises" half of the claim —
is witnessed by `parseAIResponse` being a total Lean function built from
total string operations, mirroring the fact that every string operation
the source applies (`split`, `replace`, `trim`, `substring`) is total on
JavaScript strings, so the source's `catch` branch is unreachable. -/
theorem c1_parser_total (now text : Str) (post : Post) :
    (parseAIResponse now text post).postId = post.id ∧
    (parseAIResponse now text post).timestamp = now := by
  unfold parseAIResponse
  split
  · exact ⟨foldl_parseStep_postId (splitSections text) (initResult now post),
      foldl_parseStep_timestamp (splitSections text) (initResult now post)⟩
  · exact ⟨foldl_parseStep_postId (splitSections text) (initResult now post),
      foldl_parseStep_timestamp (splitSections text) (initResult now post)⟩

/-- One classification step keeps `shootIdeas` within 5 entries and
`keyTakeaways` within 3. -/
lemma parseStep_bounds (acc : CanonicalResult) (sec : Str)
    (h1 : acc.analysis.shootIdeas.length ≤ 5)
    (h2 : acc.analysis.keyTakeaways.length ≤ 3) :
    (parseStep acc sec).analysis.shootIdeas.length ≤ 5 ∧
    (parseStep acc sec).analysis.keyTakeaways.length ≤ 3 := by
  simp only [parseStep]
  split_ifs <;> simp_all [List.length_take]

/-- The full section pass keeps `shootIdeas` within 5 entries and
`keyTakeaways` within 3. -/
lemma foldl_parseStep_bounds (secs : List Str) :
    ∀ acc : CanonicalResult, acc.analysis.shootIdeas.length ≤ 5 →
      acc.analysis.keyTakeaways.length ≤ 3 →
      (secs.foldl parseStep acc).analysis.shootIdeas.length ≤ 5 ∧
      (secs.foldl parseStep acc).analysis.keyTakeaways.length ≤ 3 := by
  induction secs with
  | nil => intro acc h1 h2; exact ⟨h1, h2⟩
  | cons s t ih =>
    intro acc h1 h2
    have h := parseStep_bounds acc s h1 h2
    exact ih (parseStep acc s) h.1 h.2

/-- C5: every CanonicalResult returned by the Response Parser satisfies
`shootIdeas.length ≤ 5` and `keyTakeaways.length ≤ 3`; the extracted
lists are obtained by `take` (a prefix of the extraction, of length
`min bound extracted`), i.e. over-long lists are truncated and shorter
lists are never padded up to the bounds. -/
theorem c5_bounds (now text : Str) (post : Post) (sec : Str) :
    (parseAIResponse now text post).analysis.shootIdeas.length ≤ 5 ∧
    (parseAIResponse now text post).analysis.keyTakeaways.length ≤ 3 ∧
    (bulletItems sec).take 5 <+: bulletItems sec ∧
    (bulletItems sec).take 3 <+: bulletItems sec ∧
    ((bulletItems sec).take 5).length = min 5 (bulletItems sec).length ∧
    ((bulletItems sec).take 3).length = min 3 (bulletItems sec).length := by
  refine ⟨?_, ?_, List.take_prefix 5 _, List.take_prefix 3 _,
    List.length_take 5 _, List.length_take 3 _⟩ <;>
  · unfold parseAIResponse
    split
    · simp
    · have h := foldl_parseStep_bounds (splitSections text) (initResult now post)
        (by simp [initResult]) (by simp [initResult])
      first
      | exact h.1
      | exact h.2

/-- C6 counterexample: the section "VIRAL FACTORS: luck" contains the
keyword "viral" (case-insensitively), yet the parser does not assign it
to `whyViral` — the result's `whyViral` is empty, not the
label-stripped "luck" the claim requires — because the source demands
both "why" and "viral". -/
theorem c6_counterexample :
    containsSub (s2l "viral") (lowerStr (s2l "VIRAL FACTORS: luck")) = true ∧
    trimStr (stripLabel (s2l "VIRAL FACTORS: luck")) = s2l "luck" ∧
    splitSections (s2l "VIRAL FACTORS: luck\nPHOTO IDEAS:\n- a") =
      [s2l "VIRAL FACTORS: luck", s2l "PHOTO IDEAS:\n- a"] ∧
    (parseAIResponse (s2l "now") (s2l "VIRAL FACTORS: luck\nPHOTO IDEAS:\n- a")
        testPost).analysis.whyViral = [] ∧
    ([] : Str) ≠ s2l "luck" := by
  refine ⟨by decide, by decide, by decide, by decide, by decide⟩

/-- C6 amended: in the heading-split fallback, a section is assigned to
`whyViral` (with the leading label before the first colon stripped)
exactly when it contains both "why" and "viral" case-insensitively — not
"viral" alone — and a section matching several keyword sets is classified
first-match-wins in the fixed precedence (why and viral) → photo/shoot →
pr/campaign → takeaway/lesson. -/
theorem c6_amended_precedence (acc : CanonicalResult) (sec : Str) :
    parseStep acc sec = applySectionClass (specSectionClass sec) acc sec := by
  simp only [parseStep, specSectionClass, applySectionClass, hasKeyword,
    Bool.and_eq_true, Bool.or_eq_true]
  split_ifs <;> rfl

/-- C7: if the heading-split pass populates neither `whyViral` nor
`shootIdeas`, the parser returns the section-pass result with `whyViral`
set to the first 200 characters of the raw input, single placeholder
entries in `shootIdeas`/`prOutline`/`keyTakeaways`, and the full raw
input attached as `fullResponse`. -/
theorem c7_rawtext_fallback (now text : Str) (post : Post)
    (h1 : (parseSectionsPass now text post).analysis.whyViral = [])
    (h2 : (parseSectionsPass now text post).analysis.shootIdeas = []) :
    parseAIResponse now text post =
      { parseSectionsPass now text post with
          analysis :=
            { whyViral := text.take 200
              shootIdeas := [s2l "See full analysis for detailed shoot ideas"]
              prOutline := [s2l "See full analysis for PR strategy"]
              keyTakeaways := [s2l "Analysis available in full response"] }
          fullResponse := some text } := by
  unfold parseAIResponse
  rw [if_pos]
  rw [h1, h2]
  rfl

/-- C7 witness: the fallback theorem applied to concrete heading-free
free text. -/
theorem c7_witness :
    parseAIResponse (s2l "now") (s2l "free text with no headings") testPost =
      { parseSectionsPass (s2l "now") (s2l "free text with no headings") testPost with
          analysis :=
            { whyViral := (s2l "free text with no headings").take 200
              shootIdeas := [s2l "See full analysis for detailed shoot ideas"]
              prOutline := [s2l "See full analysis for PR strategy"]
              keyTakeaways := [s2l "Analysis available in full response"] }
          fullResponse := some (s2l "free text with no headings") } :=
  c7_rawtext_fallback (s2l "now") (s2l "free text with no headings") testPost
    (by decide) (by decide)

/-- C2 counterexample: with all four providers registered and `openai`
as the failed provider, the router's fallback candidate list is
`[grok, claude, gemini]`, not the `[claude, gemini, grok]` mandated by
the claimed priority order openai, claude, gemini, grok. -/
theorem c2_counterexample :
    fallbackOrder .openai (fun _ => true) = [Provider.grok, Provider.claude, Provider.gemini] ∧
    claimedFallbackOrder .openai (fun _ => true) =
      [Provider.claude, Provider.gemini, Provider.grok] ∧
    fallbackOrder .openai (fun _ => true) ≠ claimedFallbackOrder .openai (fun _ => true) := by
  refine ⟨by decide, by decide, by decide⟩

/-- C2 amended: when the preferred provider fails, the Provider Router
tries the remaining providers in exactly the fixed priority order
openai, grok, claude, gemini — the candidate list is a duplicate-free
sublist of that priority list containing precisely the registered
providers other than the failed one, so each provider is tried at most
once per request. -/
theorem c2_amended_order (failed : Provider) (registered : Provider → Bool) :
    (fallbackOrder failed registered).Sublist providerPriority ∧
    (∀ p, p ∈ fallbackOrder failed registered → p ≠ failed ∧ registered p = true) ∧
    (∀ p, p ≠ failed → registered p = true → p ∈ fallbackOrder failed registered) ∧
    (fallbackOrder failed registered).Nodup := by
  refine ⟨List.filter_sublist _, ?_, ?_, ?_⟩
  · intro p hp
    rw [fallbackOrder, List.mem_filter] at hp
    have h2 := hp.2
    simp only [Bool.and_eq_true, Bool.not_eq_true', beq_eq_false_iff_ne] at h2
    exact h2
  · intro p hne hreg
    rw [fallbackOrder, List.mem_filter]
    refine ⟨by cases p <;> simp [providerPriority], ?_⟩
    simp only [Bool.and_eq_true, Bool.not_eq_true', beq_eq_false_iff_ne]
    exact ⟨hne, hreg⟩
  · exact (List.filter_sublist _).nodup (by decide)

/-- C2 witness: the amended order theorem applied with `claude` failed
and everything registered. -/
theorem c2_witness :
    Provider.grok ∈ fallbackOrder .claude (fun _ => true) ∧
    (fallbackOrder .claude (fun _ => true)).Nodup :=
  ⟨(c2_amended_order .claude (fun _ => true)).2.2.1 .grok (by decide) rfl,
    (c2_amended_order .claude (fun _ => true)).2.2.2⟩

/-- C3 counterexample: with every provider failing, the router raises the
same fixed-message error whether the last provider error was
"OpenAI 500" or "Gemini timeout", and that message mentions neither the
failing error text nor the last attempted provider (gemini) — so the
raised error carries no last error and references no provider. -/
theorem c3_counterexample :
    routerAnalyze failAllA .openai (fun _ => true) =
      .error { message := allProvidersFailedMessage } ∧
    routerAnalyze failAllB .openai (fun _ => true) =
      .error { message := allProvidersFailedMessage } ∧
    containsSub (s2l "OpenAI 500") allProvidersFailedMessage = false ∧
    containsSub (s2l "Gemini timeout") allProvidersFailedMessage = false ∧
    containsSub (s2l "gemini") allProvidersFailedMessage = false := by
  refine ⟨rfl, rfl, by decide, by decide, by decide⟩

/-- If every listed provider fails, the fallback loop ends in the fixed
exhaustion error. -/
lemma runFallbackList_all_fail {R : Type} (outcome : Provider → Except Str R) :
    ∀ l : List Provider, (∀ p ∈ l, ∃ e, outcome p = .error e) →
      runFallbackList outcome l = .error { message := allProvidersFailedMessage } := by
  intro l
  induction l with
  | nil => intro _; rfl
  | cons p ps ih =>
    intro h
    obtain ⟨e, he⟩ := h p (by simp)
    simp only [runFallbackList, he]
    exact ih (fun q hq => h q (by simp [hq]))

/-- C3 amended: if every provider fails for a request, `Router.analyze`
raises a plain Error with the fixed message "All providers failed.
Please check your API configurations." — the same error value for every
run, carrying neither the last error nor the last attempted provider. -/
theorem c3_amended_exhaustion {R : Type} (outcome : Provider → Except Str R)
    (active : Provider) (registered : Provider → Bool)
    (hreg : registered active = true)
    (hfail : ∀ p, ∃ e, outcome p = .error e) :
    routerAnalyze outcome active registered =
      .error { message := allProvidersFailedMessage } := by
  obtain ⟨e, he⟩ := hfail active
  unfold routerAnalyze
  rw [if_pos hreg, he]
  exact runFallbackList_all_fail outcome _ (fun p _ => hfail p)

/-- C3 witness: the exhaustion theorem applied to a concrete all-failing
outcome with `claude` active. -/
theorem c3_witness :
    routerAnalyze failAllA .claude (fun _ => true) =
      .error { message := allProvidersFailedMessage } :=
  c3_amended_exhaustion failAllA .claude (fun _ => true) rfl
    (fun _ => ⟨s2l "OpenAI 500", rfl⟩)

/-- C4 counterexample: with no provider credential configured, the
analyze handler returns a 200 success response whose results are the
synthesized demo analysis of `generateAIAnalysis` — it does not surface
a service-unavailable failure. -/
theorem c4_counterexample :
    (analyzeHandler (s2l "now") noKeyEnv [testPost] (s2l "openai") (s2l "full")).statusCode
      = 200 ∧
    (analyzeHandler (s2l "now") noKeyEnv [testPost] (s2l "openai") (s2l "full")).outcome =
      .success
        { success := true
          provider := s2l "openai"
          analysisType := s2l "full"
          results := [demoResultFor (s2l "now") testPost] } ∧
    (demoResultFor (s2l "now") testPost).analysis = demoAnalysis := by
  refine ⟨rfl, rfl, rfl⟩

/-- C4 amended: when the OpenAI credential is missing, or the provider
call fails, `analyzeWithOpenAI` returns the synthesized demo data of
`generateAIAnalysis`, and the analyze handler wraps it in a 200 success
response — no service-unavailable condition reaches the caller. -/
theorem c4_amended_demo_fallback (now : Str) (posts : List Post) (t : Str)
    (call : Except Str (Post → Str)) :
    analyzeWithOpenAI now posts t none call = generateAIAnalysis now posts t ∧
    (∀ k e, analyzeWithOpenAI now posts t (some k) (.error e) = generateAIAnalysis now posts t) ∧
    (∀ env : ProviderEnv, env.openaiKey = none → posts ≠ [] →
      analyzeHandler now env posts (s2l "openai") t =
        { statusCode := 200
          outcome := .success
            { success := true
              provider := s2l "openai"
              analysisType := t
              results := generateAIAnalysis now (posts.take 5) t } }) := by
  refine ⟨rfl, fun k e => rfl, ?_⟩
  intro env hk hp
  unfold analyzeHandler dispatchProvider
  rw [if_neg (by simp [List.isEmpty_iff, hp])]
  rw [if_pos rfl]
  rw [hk]
  rfl

/-- C4 witness: the amended theorem applied to a concrete keyless
environment. -/
theorem c4_witness :
    analyzeHandler (s2l "now") noKeyEnv [testPost] (s2l "openai") (s2l "full") =
      { statusCode := 200
        outcome := .success
          { success := true
            provider := s2l "openai"
            analysisType := s2l "full"
            results := generateAIAnalysis (s2l "now") ([testPost].take 5) (s2l "full") } } :=
  (c4_amended_demo_fallback (s2l "now") [testPost] (s2l "full")
    noKeyEnv.openaiCall).2.2 noKeyEnv rfl (by decide)

/-- C8: for every choice oracle (i.e. independent of the internal random
draws), the Enhancer's output lengths are a function of the input
lengths alone: non-empty `shootIdeas` and `prOutline` inputs keep their
count, an empty `shootIdeas` yields exactly 3 synthesized ideas, and an
empty `prOutline` yields exactly 4 synthesized PR steps. -/
theorem c8_enhancer_counts (rng : RandomChoice) (ideas steps : List Str) :
    (ideas ≠ [] → (enhanceShootDescriptions rng ideas).length = ideas.length) ∧
    (enhanceShootDescriptions rng []).length = 3 ∧
    (steps ≠ [] → (enhancePROutline steps).length = steps.length) ∧
    (enhancePROutline []).length = 4 := by
  refine ⟨?_, rfl, ?_, rfl⟩
  · intro h
    rw [enhanceShootDescriptions, if_pos (List.length_pos.mpr h), List.length_map]
  · intro h
    rw [enhancePROutline, if_pos (List.length_pos.mpr h)]
    simp

/-- C8 witness: the count theorem applied to a concrete oracle and
concrete one-element inputs. -/
theorem c8_witness :
    (enhanceShootDescriptions rng0 [s2l "x"]).length = 1 ∧
    (enhancePROutline [s2l "press release step"]).length = 1 :=
  ⟨(c8_enhancer_counts rng0 [s2l "x"] []).1 (by decide),
    (c8_enhancer_counts rng0 [] [s2l "press release step"]).2.2.1 (by decide)⟩

/-- The parser preserves the originating post's id (helper shared with
the handler theorems). -/
lemma parseAIResponse_postId (now text : Str) (post : Post) :
    (parseAIResponse now text post).postId = post.id := by
  unfold parseAIResponse
  split <;> exact foldl_parseStep_postId (splitSections text) (initResult now post)

/-- Every provider-backed analysis path maps each post to one result
whose `postId` is the post's id, whatever the key and call outcome: the
demo fallback tags results with the post id directly, and the parsed
path does so through `parseAIResponse`. -/
lemma analyzeViaKey_eq_map (now : Str) (posts : List Post) (t : Str)
    (key : Option Str) (call : Except Str (Post → Str)) :
    ∃ f : Post → CanonicalResult, (∀ p : Post, (f p).postId = p.id) ∧
      analyzeViaKey now posts t key call = posts.map f := by
  cases key with
  | none => exact ⟨demoResultFor now, fun p => rfl, rfl⟩
  | some k =>
    cases call with
    | ok content =>
      exact ⟨fun p => parseAIResponse now (content p) p,
        fun p => parseAIResponse_postId now (content p) p, rfl⟩
    | error e => exact ⟨demoResultFor now, fun p => rfl, rfl⟩

/-- Every branch of the handler's `switch (provider)` dispatch — the four
provider cases and the default demo case — maps each analyzed post to one
result whose `postId` is the post's id. -/
lemma dispatchProvider_eq_map (now : Str) (env : ProviderEnv) (pta : List Post)
    (provider t : Str) :
    ∃ f : Post → CanonicalResult, (∀ p : Post, (f p).postId = p.id) ∧
      dispatchProvider now env pta provider t = pta.map f := by
  unfold dispatchProvider analyzeWithOpenAI analyzeWithAnthropic analyzeWithGemini
    analyzeWithGrok
  split_ifs
  · exact analyzeViaKey_eq_map now pta t env.openaiKey env.openaiCall
  · exact analyzeViaKey_eq_map now pta t env.anthropicKey env.anthropicCall
  · exact analyzeViaKey_eq_map now pta t env.geminiKey env.geminiCall
  · exact analyzeViaKey_eq_map now pta t env.grokKey env.grokCall
  · exact ⟨demoResultFor now, fun p => rfl, rfl⟩

/-- C9: for every request to the analyze handler — any provider string,
any environment, so every branch of the dispatch including the
provider-backed ones — whose posts array has more than 5 entries, only
the first 5 posts, in their original order, are analyzed and returned:
the result list is the image of `posts.take 5` under the branch's
per-post analysis, has length 5, agrees with the input posts' ids
position by position, and has no entry beyond index 4 — entries past the
fifth are silently dropped. -/
theorem c9_first_five (now : Str) (env : ProviderEnv) (posts : List Post)
    (provider t : Str) (h : 5 < posts.length) :
    ∃ f : Post → CanonicalResult,
      (∀ p : Post, (f p).postId = p.id) ∧
      analyzeHandler now env posts provider t =
        { statusCode := 200
          outcome := .success
            { success := true
              provider := provider
              analysisType := t
              results := (posts.take 5).map f } } ∧
      ((posts.take 5).map f).length = 5 ∧
      (∀ i, i < 5 →
        ((((posts.take 5).map f)[i]?).map CanonicalResult.postId) =
          ((posts[i]?).map Post.id)) ∧
      (∀ j, 5 ≤ j → ((posts.take 5).map f)[j]? = none) := by
  have hne : posts ≠ [] := by
    intro hnil
    rw [hnil] at h
    simp at h
  obtain ⟨f, hf, hd⟩ := dispatchProvider_eq_map now env (posts.take 5) provider t
  refine ⟨f, hf, ?_, ?_, ?_, ?_⟩
  · unfold analyzeHandler
    rw [if_neg (by simp [List.isEmpty_iff, hne])]
    rw [hd]
  · rw [List.length_map, List.length_take]
    omega
  · intro i hi
    rw [List.getElem?_map, List.getElem?_take]
    simp only [hi, if_pos]
    cases hx : posts[i]? with
    | none => rfl
    | some p => simp [hf p]
  · intro j hj
    apply List.getElem?_eq_none
    rw [List.length_map, List.length_take]
    omega

/-- C9 witness: the limit theorem applied to a concrete six-post request
routed through the openai branch of the dispatch. -/
theorem c9_witness :
    ∃ f : Post → CanonicalResult,
      (∀ p : Post, (f p).postId = p.id) ∧
      analyzeHandler (s2l "now") noKeyEnv sixPosts (s2l "openai") (s2l "full") =
        { statusCode := 200
          outcome := .success
            { success := true
              provider := s2l "openai"
              analysisType := s2l "full"
              results := (sixPosts.take 5).map f } } ∧
      ((sixPosts.take 5).map f).length = 5 ∧
      (∀ i, i < 5 →
        ((((sixPosts.take 5).map f)[i]?).map CanonicalResult.postId) =
          ((sixPosts[i]?).map Post.id)) ∧
      (∀ j, 5 ≤ j → ((sixPosts.take 5).map f)[j]? = none) :=
  c9_first_five (s2l "now") noKeyEnv sixPosts (s2l "openai") (s2l "full") (by decide)

/-- The base64 alphabet decodes its own characters. -/
lemma b64Val_b64Char : ∀ n, n < 64 → b64Val (b64Char n) = some n := by decide

/-- No alphabet character is the padding character `=`. -/
lemma b64Char_ne_pad : ∀ n, n < 64 → b64Char n ≠ 61 := by decide

/-- `atob` inverts `btoa` on every byte sequence in the storable range. -/
theorem atob_btoa : ∀ l : List Nat, (∀ b ∈ l, b < 256) → atobAux (btoaAux l) = some l
  | [] => fun _ => rfl
  | [a] => by
    intro h
    have ha : a < 256 := h a (by simp)
    have h1 : a / 4 < 64 := by omega
    have h2 : a % 4 * 16 < 64 := by omega
    simp [btoaAux, atobAux, b64Val_b64Char _ h1, b64Val_b64Char _ h2]
    omega
  | [a, b] => by
    intro h
    have ha : a < 256 := h a (by simp)
    have hb : b < 256 := h b (by simp)
    have h1 : a / 4 < 64 := by omega
    have h2 : a % 4 * 16 + b / 16 < 64 := by omega
    have h3 : b % 16 * 4 < 64 := by omega
    simp [btoaAux, atobAux, b64Val_b64Char _ h1, b64Val_b64Char _ h2,
      b64Val_b64Char _ h3, b64Char_ne_pad _ h3]
    omega
  | a :: b :: c :: rest => by
    intro h
    have ha : a < 256 := h a (by simp)
    have hb : b < 256 := h b (by simp)
    have hc : c < 256 := h c (by simp)
    have h1 : a / 4 < 64 := by omega
    have h2 : a % 4 * 16 + b / 16 < 64 := by omega
    have h3 : b % 16 * 4 + c / 64 < 64 := by omega
    have h4 : c % 64 < 64 := by omega
    have ih := atob_btoa rest (fun x hx => h x (by simp [hx]))
    simp [btoaAux, atobAux, b64Val_b64Char _ h1, b64Val_b64Char _ h2,
      b64Val_b64Char _ h3, b64Val_b64Char _ h4, b64Char_ne_pad _ h3,
      b64Char_ne_pad _ h4, ih]
    omega

/-- Reading back a just-written storage entry yields the written value. -/
lemma getItem_setItem (st : JSStorage) (k : String) (v : List Nat) :
    getItem (setItem st k v) k = some v := by
  simp [getItem, setItem, List.find?]

/-- C10 amended: for every non-empty key over the storable character
range and any fixed salt, `decode (encode key)` recovers the key, and
`getKey` invoked immediately after `saveKey` returns exactly the saved
key.  (For the empty key, `saveKey` removes the entry instead, see the
counterexample.) -/
theorem c10_amended_roundtrip (salt key : List Nat) (st : JSStorage) (provider : String)
    (hsalt : ∀ b ∈ salt, b < 256) (hkey : ∀ b ∈ key, b < 256) (hne : key ≠ []) :
    encode salt key = some (btoaAux (salt ++ key)) ∧
    decode salt (btoaAux (salt ++ key)) = some key ∧
    ∃ st2, saveKey salt st provider key = some st2 ∧
      getKey salt st2 provider = some (some key, st2) := by
  have hall : ∀ b ∈ salt ++ key, b < 256 := by
    intro b hb
    rcases List.mem_append.mp hb with h | h
    · exact hsalt b h
    · exact hkey b h
  have hrt := atob_btoa (salt ++ key) hall
  have henc : encode salt key = some (btoaAux (salt ++ key)) := by
    rw [encode, btoaJS, if_pos]
    rw [List.all_eq_true]
    intro b hb
    simpa using hall b hb
  have hdec : decode salt (btoaAux (salt ++ key)) = some key := by
    rw [decode, hrt, Option.map_some']
    rw [List.drop_left]
  refine ⟨henc, hdec, setItem st (secureKeyName provider) (btoaAux (salt ++ key)), ?_, ?_⟩
  · rw [saveKey, if_neg hne, henc, Option.map_some']
  · simp only [getKey, getItem_setItem, hdec]

/-- C10 counterexample: the claim fails at the empty key, which lies in
the storable range: `decode (encode "")` does recover `""`, but
`saveKey` on a falsy key removes the stored entry, so an immediate
`getKey` returns `null` rather than the saved key. -/
theorem c10_counterexample :
    saveKey [97] [] "openai" [] = some [] ∧
    getKey [97] [] "openai" = some (none, []) ∧
    encode [97] [] = some (btoaAux [97]) ∧
    decode [97] (btoaAux [97]) = some [] ∧
    (none : Option (List Nat)) ≠ some [] := by
  refine ⟨rfl, rfl, rfl, rfl, by decide⟩

/-- C10 witness: the round-trip theorem applied to a concrete salt,
storage, and one-byte key. -/
theorem c10_witness :
    ∃ st2, saveKey [97] [] "openai" [65] = some st2 ∧
      getKey [97] st2 "openai" = some (some [65], st2) :=
  (c10_amended_roundtrip [97] [65] [] "openai" (by decide) (by decide) (by decide)).2.2

end ContentAnalyzer
